import Mathlib

/-!
Verification of `server/events/openrouter_summarizer.go` from memfault/atlantis.

The file `SummarizePlans` is a single synchronous helper: it joins Terraform
plan outputs, reads configuration from the process environment, issues one
HTTP POST to the OpenRouter chat-completion endpoint, and extracts a trimmed
summary string, degrading to the empty string on every failure path.

The shallow embedding below models the function as a pure function of
  - the input list of plan outputs,
  - an environment record (Go `os.Getenv` returns `""` for unset variables,
    so unset and empty are indistinguishable to the code and are modelled
    as the string value alone),
  - an abstract HTTP outcome (transport failure, body read failure, or a
    response carrying a status code and a body that is either not valid
    JSON or a parsed JSON value).
The outcome records the returned string together with the request payload
handed to the HTTP layer (if any) and the Authorization header value, so
that no-network-call and payload-shape claims are statable.
-/

set_option autoImplicit false

namespace OpenRouterSummarizer

/-- Whitespace predicate of Go `unicode.IsSpace`: the Latin-1 space
characters together with the Unicode space separators that Go treats as
white space.  `strings.TrimSpace` trims exactly these characters. -/
def goIsSpace (c : Char) : Bool :=
  c = ' ' || c = '\t' || c = '\n' || c = (Char.ofNat 11) || c = (Char.ofNat 12) ||
  c = '\r' || c = (Char.ofNat 0x85) || c = (Char.ofNat 0xA0) ||
  c = (Char.ofNat 0x1680) ||
  (0x2000 ≤ c.toNat && c.toNat ≤ 0x200A) ||
  c = (Char.ofNat 0x2028) || c = (Char.ofNat 0x2029) ||
  c = (Char.ofNat 0x202F) || c = (Char.ofNat 0x205F) || c = (Char.ofNat 0x3000)

/-- Model of Go `strings.TrimSpace`: drop leading and trailing white space. -/
def goTrimSpace (s : String) : String :=
  String.mk (((s.toList.dropWhile goIsSpace).reverse.dropWhile goIsSpace).reverse)

/-- Model of Go `strings.Join sep`: the first element followed by
`sep ++ elem` for every further element; `""` on the empty list. -/
def goStringsJoin (sep : String) : List String → String
  | [] => ""
  | x :: xs => xs.foldl (fun acc s => acc ++ sep ++ s) x

/-- The constant `defaultSystemPrompt` of the source file. -/
def defaultSystemPrompt : String :=
  "You are giving a summary of the changes in this terraform plan to a senior engineer. They are looking to know at a glance what is in this plan. Especially highlight any differences between environments; this is very important. For example, if a change is only being applied to one environment this MUST be called out. Your output should be a one-sentence summary followed by detailed bullet points of the changes to be made. Use as many bullet points as you need; the bullet points must cover every change. You may summarize a change, such as \"the AMI is being updated from X to Y in all environments\"; these would not need to be individual bullets. If a change is happening to every environment in the output, do not enumerate environments, just say \"all environments\" or \"all worker_generic\" environments."

/-- Structure `openRouterMessage`: a role-tagged chat message. -/
structure openRouterMessage where
  role : String
  content : String
deriving Repr, DecidableEq

/-- Structure `openRouterRequest`: the request payload, a model identifier and a list
of messages. -/
structure openRouterRequest where
  model : String
  messages : List openRouterMessage
deriving Repr, DecidableEq

/-- Structure `openRouterChoice`: one choice of the response. -/
structure openRouterChoice where
  message : openRouterMessage
deriving Repr, DecidableEq

/-- Structure `openRouterError`: the error object the API may return. -/
structure openRouterError where
  message : String
  type : String
deriving Repr, DecidableEq

/-- Structure `openRouterResponse`: the decoded response, a (possibly empty) list of
choices and an optional error object (a nil pointer in Go is `none`). -/
structure openRouterResponse where
  choices : List openRouterChoice
  error : Option openRouterError
deriving Repr, DecidableEq

/-- JSON values, for modelling `encoding/json` unmarshalling of the
response body. -/
inductive Json where
  | null : Json
  | bool (b : Bool) : Json
  | num (n : Int) : Json
  | str (s : String) : Json
  | arr (xs : List Json) : Json
  | obj (fields : List (String × Json)) : Json
deriving Repr

/-- ASCII lower casing of one character, for matching JSON keys the way Go
`strings.EqualFold` does on the ASCII field tags involved here. -/
def asciiLower (c : Char) : Char :=
  if c.toNat ≥ 65 ∧ c.toNat ≤ 90 then Char.ofNat (c.toNat + 32) else c

/-- ASCII lower casing of a key string. -/
def lowerKey (s : String) : String :=
  String.mk (s.toList.map asciiLower)

/-- Field lookup as `encoding/json` performs it for a struct field: keys
are matched case-insensitively (Go prefers an exact match when choosing
the struct field for a key, but all of these keys feed the same field) and
with duplicate keys the later value overwrites the earlier one, so the
last matching occurrence wins. -/
def lookupField (fields : List (String × Json)) (key : String) : Option Json :=
  ((fields.filter (fun p => lowerKey p.fst == lowerKey key)).getLast?).map Prod.snd

/-- Decoding a JSON value into a Go `string` field: JSON null leaves the
zero value `""`; anything that is not a string is an unmarshal error. -/
def decodeString : Json → Except String String
  | Json.null => Except.ok ""
  | Json.str s => Except.ok s
  | _ => Except.error "cannot unmarshal into string"

/-- Decoding into `openRouterMessage`: null keeps the zero value; a missing
field keeps the zero value of that field; non-objects are errors. -/
def decodeMessage : Json → Except String openRouterMessage
  | Json.null => Except.ok ⟨"", ""⟩
  | Json.obj fields => do
      let role ← match lookupField fields "role" with
        | none => Except.ok ""
        | some j => decodeString j
      let content ← match lookupField fields "content" with
        | none => Except.ok ""
        | some j => decodeString j
      Except.ok ⟨role, content⟩
  | _ => Except.error "cannot unmarshal into openRouterMessage"

/-- Decoding into `openRouterChoice`. -/
def decodeChoice : Json → Except String openRouterChoice
  | Json.null => Except.ok ⟨⟨"", ""⟩⟩
  | Json.obj fields =>
      match lookupField fields "message" with
      | none => Except.ok ⟨⟨"", ""⟩⟩
      | some j => (decodeMessage j).map (fun m => ⟨m⟩)
  | _ => Except.error "cannot unmarshal into openRouterChoice"

/-- Decoding into the `[]openRouterChoice` slice: JSON null leaves the nil
slice; non-arrays are errors. -/
def decodeChoices : Json → Except String (List openRouterChoice)
  | Json.null => Except.ok []
  | Json.arr xs => xs.mapM decodeChoice
  | _ => Except.error "cannot unmarshal into choices slice"

/-- Decoding into the `*openRouterError` pointer field: JSON null leaves
the nil pointer (`none`); an object allocates and fills the struct. -/
def decodeErrorField : Json → Except String (Option openRouterError)
  | Json.null => Except.ok none
  | Json.obj fields => do
      let msg ← match lookupField fields "message" with
        | none => Except.ok ""
        | some j => decodeString j
      let ty ← match lookupField fields "type" with
        | none => Except.ok ""
        | some j => decodeString j
      Except.ok (some ⟨msg, ty⟩)
  | _ => Except.error "cannot unmarshal into openRouterError pointer"

/-- Model of `json.Unmarshal(body, &openRouterResp)`: JSON null leaves the zero
struct (nil choices, nil error); an object fills the two tagged fields,
absent keys keeping the zero values; any other top-level value is an
unmarshal error. -/
def decodeOpenRouterResponse : Json → Except String openRouterResponse
  | Json.null => Except.ok ⟨[], none⟩
  | Json.obj fields => do
      let choices ← match lookupField fields "choices" with
        | none => Except.ok []
        | some j => decodeChoices j
      let err ← match lookupField fields "error" with
        | none => Except.ok none
        | some j => decodeErrorField j
      Except.ok ⟨choices, err⟩
  | _ => Except.error "cannot unmarshal into openRouterResponse"

/-- The process environment as the two variables the function reads.
Go `os.Getenv` yields `""` for an unset variable, so an unset variable and
one set to the empty string are both the value `""`. -/
structure Env where
  apiKey : String
  systemPrompt : String
deriving Repr, DecidableEq

/-- The outcome of the single HTTP exchange, as the code observes it:
`client.Do` fails (covering connection failure and the 30-second timeout),
`io.ReadAll` on the body fails, or a response arrives with a status code
and a body that either is not valid JSON (`none`) or parses to a JSON
value. -/
inductive HttpOutcome where
  | transportError : HttpOutcome
  | readError : HttpOutcome
  | response (status : Nat) (body : Option Json) : HttpOutcome
deriving Repr

/-- What a call to `SummarizePlans` produces: the returned string, the
request payload handed to the HTTP client (`none` when the function
returns before any network activity), and the Authorization header value
set on that request. -/
structure SummarizeOutcome where
  result : String
  request : Option openRouterRequest
  authorization : Option String
deriving Repr, DecidableEq

/-- The system prompt resolution of lines 73 to 76: the environment
override when non-empty, else the fixed default. -/
def resolveSystemPrompt (env : Env) : String :=
  if env.systemPrompt = "" then defaultSystemPrompt else env.systemPrompt

/-- The request payload built at lines 79 to 91: the fixed model
identifier and the two messages, system then user. -/
def buildRequest (terraformOutputs : List String) (env : Env) : openRouterRequest :=
  { model := "anthropic/claude-sonnet-4.5"
  , messages :=
      [ { role := "system", content := resolveSystemPrompt env }
      , { role := "user", content := goStringsJoin "\n\n---\n\n" terraformOutputs } ] }

/-- The response handling of lines 131 to 163: non-200 status, unparseable
body, decode failure, API error object, empty choices and empty trimmed
content each yield `""`; otherwise the trimmed first-choice content. -/
def extractSummary (status : Nat) (body : Option Json) : String :=
  if status ≠ 200 then ""
  else
    match body with
    | none => ""
    | some j =>
      match decodeOpenRouterResponse j with
      | Except.error _ => ""
      | Except.ok resp =>
        if resp.error.isSome then ""
        else
          match resp.choices with
          | [] => ""
          | c :: _ =>
            let summary := goTrimSpace c.message.content
            if summary = "" then "" else summary

/-- Shallow embedding of `SummarizePlans` (lines 57 to 164).  Logging has
no effect on the returned value and is elided; `json.Marshal` and
`http.NewRequest` cannot fail on this payload (a struct of strings and a
constant well-formed URL) and are modelled as succeeding. -/
def SummarizePlans (terraformOutputs : List String) (env : Env)
    (http : HttpOutcome) : SummarizeOutcome :=
  if terraformOutputs.length = 0 then ⟨"", none, none⟩
  else if env.apiKey = "" then ⟨"", none, none⟩
  else
    let req := buildRequest terraformOutputs env
    let auth := some ("Bearer " ++ env.apiKey)
    match http with
    | HttpOutcome.transportError => ⟨"", some req, auth⟩
    | HttpOutcome.readError => ⟨"", some req, auth⟩
    | HttpOutcome.response status body => ⟨extractSummary status body, some req, auth⟩

/-- Modelled from the spec: the combined body is the plan texts
"joined in input order with the literal separator", written here by direct
recursion on the input list, to be compared with the `strings.Join` of the
source. -/
def joinedPlans : List String → String
  | [] => ""
  | [x] => x
  | x :: y :: xs => x ++ "\n\n---\n\n" ++ joinedPlans (y :: xs)

/-- The failure categories of the HTTP exchange named by the spec:
transport failure (including timeout), unreadable body, non-200 status,
unparseable JSON, API error object, empty choices, empty trimmed
content. -/
def httpFailed : HttpOutcome → Bool
  | HttpOutcome.transportError => true
  | HttpOutcome.readError => true
  | HttpOutcome.response status body =>
    (status != 200) ||
    match body with
    | none => true
    | some j =>
      match decodeOpenRouterResponse j with
      | Except.error _ => true
      | Except.ok resp =>
        resp.error.isSome ||
        match resp.choices with
        | [] => true
        | c :: _ => goTrimSpace c.message.content == ""


/-! ## Helper lemmas -/

theorem foldl_join_append (sep : String) (xs : List String) :
    ∀ a b : String,
      xs.foldl (fun acc s => acc ++ sep ++ s) (a ++ b) =
        a ++ xs.foldl (fun acc s => acc ++ sep ++ s) b := by
  induction xs with
  | nil => intro a b; rfl
  | cons y ys ih =>
    intro a b
    show ys.foldl (fun acc s => acc ++ sep ++ s) (a ++ b ++ sep ++ y) =
      a ++ ys.foldl (fun acc s => acc ++ sep ++ s) (b ++ sep ++ y)
    rw [String.append_assoc a b sep, String.append_assoc a (b ++ sep) y]
    exact ih a (b ++ sep ++ y)

theorem goStringsJoin_eq_joinedPlans (l : List String) :
    goStringsJoin "\n\n---\n\n" l = joinedPlans l := by
  induction l with
  | nil => rfl
  | cons x xs ih =>
    cases xs with
    | nil => rfl
    | cons y ys =>
      show List.foldl (fun acc s => acc ++ "\n\n---\n\n" ++ s)
          (x ++ "\n\n---\n\n" ++ y) ys = joinedPlans (x :: y :: ys)
      rw [foldl_join_append "\n\n---\n\n" ys (x ++ "\n\n---\n\n") y]
      show (x ++ "\n\n---\n\n") ++ goStringsJoin "\n\n---\n\n" (y :: ys) = _
      rw [ih]
      show (x ++ "\n\n---\n\n") ++ joinedPlans (y :: ys) =
        x ++ "\n\n---\n\n" ++ joinedPlans (y :: ys)
      rw [String.append_assoc]

theorem summarizePlans_result_response (outputs : List String) (env : Env)
    (status : Nat) (body : Option Json) :
    (SummarizePlans outputs env (HttpOutcome.response status body)).result =
      if outputs.length = 0 then ""
      else if env.apiKey = "" then ""
      else extractSummary status body := by
  unfold SummarizePlans
  by_cases hl : outputs.length = 0
  · rw [if_pos hl, if_pos hl]
  · rw [if_neg hl, if_neg hl]
    by_cases hk : env.apiKey = ""
    · rw [if_pos hk, if_pos hk]
    · rw [if_neg hk, if_neg hk]

theorem summarizePlans_request_eq (outputs : List String) (env : Env)
    (http : HttpOutcome) :
    (SummarizePlans outputs env http).request = none ∨
      (SummarizePlans outputs env http).request = some (buildRequest outputs env) := by
  unfold SummarizePlans
  by_cases hl : outputs.length = 0
  · rw [if_pos hl]; exact Or.inl rfl
  · rw [if_neg hl]
    by_cases hk : env.apiKey = ""
    · rw [if_pos hk]; exact Or.inl rfl
    · rw [if_neg hk]
      cases http with
      | transportError => exact Or.inr rfl
      | readError => exact Or.inr rfl
      | response status body => exact Or.inr rfl

theorem summarizePlans_active (outputs : List String) (env : Env)
    (http : HttpOutcome) (h1 : outputs ≠ []) (h2 : env.apiKey ≠ "") :
    (SummarizePlans outputs env http).request = some (buildRequest outputs env) ∧
      (SummarizePlans outputs env http).authorization =
        some ("Bearer " ++ env.apiKey) := by
  have hl : ¬ outputs.length = 0 := by
    simpa [List.length_eq_zero] using h1
  unfold SummarizePlans
  rw [if_neg hl, if_neg h2]
  cases http with
  | transportError => exact ⟨rfl, rfl⟩
  | readError => exact ⟨rfl, rfl⟩
  | response status body => exact ⟨rfl, rfl⟩

/-! ## Claims -/

/-- C3: if the input sequence is empty, `SummarizePlans` returns the empty
string immediately and issues no network request, regardless of the
environment values and of whatever the HTTP layer would have produced. -/
theorem C3_empty_inputs_empty_result_no_request (env : Env) (http : HttpOutcome) :
    (SummarizePlans [] env http).result = "" ∧
      (SummarizePlans [] env http).request = none :=
  ⟨rfl, rfl⟩

/-- C2: if the API key environment value is empty (Go reports an unset
variable as the empty string), `SummarizePlans` returns the empty string
and issues no network request, for every input sequence and every HTTP
outcome. -/
theorem C2_no_api_key_empty_result_no_request (outputs : List String) (env : Env)
    (http : HttpOutcome) (h : env.apiKey = "") :
    (SummarizePlans outputs env http).result = "" ∧
      (SummarizePlans outputs env http).request = none := by
  unfold SummarizePlans
  by_cases hl : outputs.length = 0
  · rw [if_pos hl]; exact ⟨rfl, rfl⟩
  · rw [if_neg hl, if_pos h]; exact ⟨rfl, rfl⟩

theorem C2_witness :
    (Env.mk "" "X").apiKey = "" ∧
      (SummarizePlans ["planA"] (Env.mk "" "X") HttpOutcome.transportError).result = "" ∧
      (SummarizePlans ["planA"] (Env.mk "" "X") HttpOutcome.transportError).request = none :=
  ⟨rfl, C2_no_api_key_empty_result_no_request ["planA"] (Env.mk "" "X")
    HttpOutcome.transportError rfl⟩

/-- C10: an HTTP 200 body that is valid JSON but omits both the choices and
the error field (the object without fields, or JSON null) decodes
successfully to absent error and empty choices, and `SummarizePlans`
returns the empty string through the empty-choices branch, never through a
parse failure. -/
theorem C10_missing_fields_decode_to_zero_and_empty_result
    (outputs : List String) (env : Env) :
    decodeOpenRouterResponse (Json.obj []) = Except.ok ⟨[], none⟩ ∧
      decodeOpenRouterResponse Json.null = Except.ok ⟨[], none⟩ ∧
      (SummarizePlans outputs env
        (HttpOutcome.response 200 (some (Json.obj [])))).result = "" ∧
      (SummarizePlans outputs env
        (HttpOutcome.response 200 (some Json.null))).result = "" := by
  refine ⟨rfl, rfl, ?_, ?_⟩ <;>
  · rw [summarizePlans_result_response]
    by_cases hl : outputs.length = 0
    · rw [if_pos hl]
    · rw [if_neg hl]
      by_cases hk : env.apiKey = ""
      · rw [if_pos hk]
      · rw [if_neg hk]; rfl


theorem if_empty_self (s : String) : (if s = "" then "" else s) = s := by
  by_cases h : s = "" <;> simp [h]

theorem extractSummary_non200 (status : Nat) (body : Option Json)
    (h : status ≠ 200) : extractSummary status body = "" := by
  unfold extractSummary
  rw [if_pos h]

theorem extractSummary_200_decode_error (j : Json) (e : String)
    (hdec : decodeOpenRouterResponse j = Except.error e) :
    extractSummary 200 (some j) = "" := by
  have h1 : extractSummary 200 (some j) =
      (match decodeOpenRouterResponse j with
       | Except.error _ => ""
       | Except.ok resp =>
         if resp.error.isSome then ""
         else
           match resp.choices with
           | [] => ""
           | c :: _ =>
             let summary := goTrimSpace c.message.content
             if summary = "" then "" else summary) := rfl
  rw [h1, hdec]

theorem extractSummary_200_decoded (j : Json) (resp : openRouterResponse)
    (hdec : decodeOpenRouterResponse j = Except.ok resp) :
    extractSummary 200 (some j) =
      if resp.error.isSome then ""
      else
        match resp.choices with
        | [] => ""
        | c :: _ => goTrimSpace c.message.content := by
  have h1 : extractSummary 200 (some j) =
      (match decodeOpenRouterResponse j with
       | Except.error _ => ""
       | Except.ok r =>
         if r.error.isSome then ""
         else
           match r.choices with
           | [] => ""
           | c :: _ =>
             let summary := goTrimSpace c.message.content
             if summary = "" then "" else summary) := rfl
  rw [h1, hdec]
  show (if resp.error.isSome = true then ""
        else
          match resp.choices with
          | [] => ""
          | c :: _ =>
            let summary := goTrimSpace c.message.content
            if summary = "" then "" else summary) = _
  cases hc : resp.choices with
  | nil => rfl
  | cons c cs =>
    show (if resp.error.isSome = true then ""
          else if goTrimSpace c.message.content = "" then ""
          else goTrimSpace c.message.content) =
      if resp.error.isSome = true then "" else goTrimSpace c.message.content
    rw [if_empty_self]

theorem extractSummary_of_failed (status : Nat) (body : Option Json)
    (h : httpFailed (HttpOutcome.response status body) = true) :
    extractSummary status body = "" := by
  by_cases hs : status = 200
  · subst hs
    cases body with
    | none => rfl
    | some j =>
      cases hdec : decodeOpenRouterResponse j with
      | error e => exact extractSummary_200_decode_error j e hdec
      | ok resp =>
        have h3 : httpFailed (HttpOutcome.response 200 (some j)) =
            ((200 != 200) ||
              match decodeOpenRouterResponse j with
              | Except.error _ => true
              | Except.ok resp =>
                resp.error.isSome ||
                match resp.choices with
                | [] => true
                | c :: _ => goTrimSpace c.message.content == "") := rfl
        rw [h3, hdec] at h
        have h2 : (resp.error.isSome ||
            match resp.choices with
            | [] => true
            | c :: _ => goTrimSpace c.message.content == "") = true := h
        rw [extractSummary_200_decoded j resp hdec]
        cases herr : resp.error.isSome with
        | true => rfl
        | false =>
          rw [herr] at h2
          simp only [Bool.false_or] at h2
          show (match resp.choices with
                | [] => ""
                | c :: _ => goTrimSpace c.message.content) = ""
          cases hc : resp.choices with
          | nil => rfl
          | cons c cs =>
            rw [hc] at h2
            show goTrimSpace c.message.content = ""
            exact eq_of_beq h2
  · exact extractSummary_non200 status body hs

theorem result_response_empty (outputs : List String) (env : Env)
    (status : Nat) (body : Option Json)
    (h : extractSummary status body = "") :
    (SummarizePlans outputs env (HttpOutcome.response status body)).result = "" := by
  rw [summarizePlans_result_response]
  by_cases hl : outputs.length = 0
  · rw [if_pos hl]
  · rw [if_neg hl]
    by_cases hk : env.apiKey = ""
    · rw [if_pos hk]
    · rw [if_neg hk]; exact h

/-- C1: for every input sequence, every environment and every failing HTTP
outcome (transport failure or timeout, unreadable body, non-200 status,
unparseable JSON, API error object, empty choices, empty trimmed content),
`SummarizePlans` returns the empty string; all failure categories yield
the same empty-string result and none escapes to the caller. -/
theorem C1_every_failure_returns_empty (outputs : List String) (env : Env)
    (http : HttpOutcome) (h : httpFailed http = true) :
    (SummarizePlans outputs env http).result = "" := by
  cases http with
  | transportError =>
    unfold SummarizePlans
    by_cases hl : outputs.length = 0
    · rw [if_pos hl]
    · rw [if_neg hl]
      by_cases hk : env.apiKey = ""
      · rw [if_pos hk]
      · rw [if_neg hk]
  | readError =>
    unfold SummarizePlans
    by_cases hl : outputs.length = 0
    · rw [if_pos hl]
    · rw [if_neg hl]
      by_cases hk : env.apiKey = ""
      · rw [if_pos hk]
      · rw [if_neg hk]
  | response status body =>
    exact result_response_empty outputs env status body
      (extractSummary_of_failed status body h)

theorem C1_witness :
    httpFailed (HttpOutcome.response 500 none) = true ∧
      (SummarizePlans ["plan output"] (Env.mk "k1" "")
        (HttpOutcome.response 500 none)).result = "" :=
  ⟨rfl, C1_every_failure_returns_empty ["plan output"] (Env.mk "k1" "")
    (HttpOutcome.response 500 none) rfl⟩

/-- C4: for every non-empty input and non-empty API key, the request handed
to the HTTP layer carries, as its second (user) message, exactly the plan
texts joined in input order with the literal separator between a pair of
blank-line-wrapped dashes, with no extra spacing. -/
theorem C4_user_message_is_joined_plans (outputs : List String) (env : Env)
    (http : HttpOutcome) (h1 : outputs ≠ []) (h2 : env.apiKey ≠ "") :
    ∃ req, (SummarizePlans outputs env http).request = some req ∧
      req.messages.get? 1 = some ⟨"user", joinedPlans outputs⟩ := by
  refine ⟨buildRequest outputs env,
    (summarizePlans_active outputs env http h1 h2).1, ?_⟩
  show some (⟨"user", goStringsJoin "\n\n---\n\n" outputs⟩ : openRouterMessage) =
    some ⟨"user", joinedPlans outputs⟩
  rw [goStringsJoin_eq_joinedPlans]

theorem C4_witness :
    ∃ req, (SummarizePlans ["planA", "planB"] (Env.mk "key" "")
        HttpOutcome.transportError).request = some req ∧
      req.messages.get? 1 = some ⟨"user", "planA\n\n---\n\nplanB"⟩ := by
  obtain ⟨req, hreq, hmsg⟩ := C4_user_message_is_joined_plans
    ["planA", "planB"] (Env.mk "key" "") HttpOutcome.transportError
    (by decide) (by decide)
  refine ⟨req, hreq, ?_⟩
  rw [hmsg]
  decide

/-- C5: the outgoing system message carries the system-prompt environment
value when that value is non-empty, and the fixed default prompt when the
variable is unset or empty. -/
theorem C5_system_prompt_resolution (outputs : List String) (env : Env)
    (http : HttpOutcome) (h1 : outputs ≠ []) (h2 : env.apiKey ≠ "") :
    ∃ req, (SummarizePlans outputs env http).request = some req ∧
      (env.systemPrompt ≠ "" →
        req.messages.get? 0 = some ⟨"system", env.systemPrompt⟩) ∧
      (env.systemPrompt = "" →
        req.messages.get? 0 = some ⟨"system", defaultSystemPrompt⟩) := by
  refine ⟨buildRequest outputs env,
    (summarizePlans_active outputs env http h1 h2).1, ?_, ?_⟩
  · intro hsp
    show some (⟨"system", resolveSystemPrompt env⟩ : openRouterMessage) = _
    unfold resolveSystemPrompt
    rw [if_neg hsp]
  · intro hsp
    show some (⟨"system", resolveSystemPrompt env⟩ : openRouterMessage) = _
    unfold resolveSystemPrompt
    rw [if_pos hsp]

theorem C5_witness :
    ∃ req, (SummarizePlans ["planC"] (Env.mk "key2" "X")
        HttpOutcome.readError).request = some req ∧
      req.messages.get? 0 = some ⟨"system", "X"⟩ := by
  obtain ⟨req, hreq, hx, _⟩ := C5_system_prompt_resolution
    ["planC"] (Env.mk "key2" "X") HttpOutcome.readError (by decide) (by decide)
  exact ⟨req, hreq, hx (by decide)⟩

/-- C6: every request payload the function hands to the HTTP layer has the
fixed model identifier and exactly the two messages, system (with the
resolved prompt) then user (with the combined plan body). -/
theorem C6_request_model_and_two_messages (outputs : List String) (env : Env)
    (http : HttpOutcome) (req : openRouterRequest)
    (h : (SummarizePlans outputs env http).request = some req) :
    req.model = "anthropic/claude-sonnet-4.5" ∧
      req.messages =
        [⟨"system", resolveSystemPrompt env⟩,
         ⟨"user", goStringsJoin "\n\n---\n\n" outputs⟩] := by
  cases summarizePlans_request_eq outputs env http with
  | inl hn => rw [hn] at h; cases h
  | inr hs =>
    rw [hs] at h
    injection h with h
    subst h
    exact ⟨rfl, rfl⟩

theorem C6_witness :
    (SummarizePlans ["planD"] (Env.mk "k6" "") HttpOutcome.transportError).request =
        some (buildRequest ["planD"] (Env.mk "k6" "")) ∧
      (buildRequest ["planD"] (Env.mk "k6" "")).model = "anthropic/claude-sonnet-4.5" ∧
      (buildRequest ["planD"] (Env.mk "k6" "")).messages =
        [⟨"system", resolveSystemPrompt (Env.mk "k6" "")⟩,
         ⟨"user", goStringsJoin "\n\n---\n\n" ["planD"]⟩] :=
  ⟨rfl, C6_request_model_and_two_messages ["planD"] (Env.mk "k6" "")
    HttpOutcome.transportError (buildRequest ["planD"] (Env.mk "k6" "")) rfl⟩

/-- C7: on a successfully decoded HTTP 200 response, a present error object
forces the empty-string result even when choices are also present (the
error check precedes the choices inspection), and with no error object an
empty choices list also forces the empty-string result. -/
theorem C7_error_precedence_then_empty_choices (outputs : List String)
    (env : Env) (j : Json) (resp : openRouterResponse)
    (hdec : decodeOpenRouterResponse j = Except.ok resp) :
    (resp.error.isSome = true →
      (SummarizePlans outputs env (HttpOutcome.response 200 (some j))).result = "") ∧
    (resp.error = none → resp.choices = [] →
      (SummarizePlans outputs env (HttpOutcome.response 200 (some j))).result = "") := by
  constructor
  · intro herr
    refine result_response_empty outputs env 200 (some j) ?_
    rw [extractSummary_200_decoded j resp hdec, if_pos herr]
  · intro herr hch
    refine result_response_empty outputs env 200 (some j) ?_
    rw [extractSummary_200_decoded j resp hdec, herr, hch]
    rfl

theorem C7_witness :
    (SummarizePlans ["p7"] (Env.mk "k7" "")
      (HttpOutcome.response 200 (some (Json.obj
        [("error", Json.obj [("message", Json.str "bad key"), ("type", Json.str "auth")]),
         ("choices", Json.arr [Json.obj [("message", Json.obj
           [("role", Json.str "assistant"),
            ("content", Json.str "ignored")])]])])))).result = "" := by
  have h := C7_error_precedence_then_empty_choices ["p7"] (Env.mk "k7" "")
    (Json.obj
      [("error", Json.obj [("message", Json.str "bad key"), ("type", Json.str "auth")]),
       ("choices", Json.arr [Json.obj [("message", Json.obj
         [("role", Json.str "assistant"),
          ("content", Json.str "ignored")])]])])
    ⟨[⟨⟨"assistant", "ignored"⟩⟩], some ⟨"bad key", "auth"⟩⟩ rfl
  exact h.1 rfl

/-- C8: on an HTTP 200 response that decodes with no error object and at
least one choice, and when the function is active (non-empty input and
key), the result is the first-choice message content with surrounding
white space trimmed; when that trimmed string is empty, the result is the
empty string, which is the same value. -/
theorem C8_success_returns_trimmed_content (outputs : List String) (env : Env)
    (j : Json) (resp : openRouterResponse) (c : openRouterChoice)
    (rest : List openRouterChoice)
    (h1 : outputs ≠ []) (h2 : env.apiKey ≠ "")
    (hdec : decodeOpenRouterResponse j = Except.ok resp)
    (herr : resp.error = none) (hch : resp.choices = c :: rest) :
    (SummarizePlans outputs env (HttpOutcome.response 200 (some j))).result =
      goTrimSpace c.message.content := by
  have hl : ¬ outputs.length = 0 := by
    simpa [List.length_eq_zero] using h1
  rw [summarizePlans_result_response, if_neg hl, if_neg h2]
  rw [extractSummary_200_decoded j resp hdec, herr, hch]
  rfl

theorem C8_witness :
    (SummarizePlans ["p8"] (Env.mk "k8" "")
      (HttpOutcome.response 200 (some (Json.obj
        [("choices", Json.arr [Json.obj [("message", Json.obj
          [("role", Json.str "assistant"),
           ("content", Json.str "  Summary text.  ")])]])])))).result =
      "Summary text." := by
  have h := C8_success_returns_trimmed_content ["p8"] (Env.mk "k8" "")
    (Json.obj
      [("choices", Json.arr [Json.obj [("message", Json.obj
        [("role", Json.str "assistant"),
         ("content", Json.str "  Summary text.  ")])]])])
    ⟨[⟨⟨"assistant", "  Summary text.  "⟩⟩], none⟩
    ⟨⟨"assistant", "  Summary text.  "⟩⟩ []
    (by decide) (by decide) rfl rfl rfl
  exact h.trans (by decide)

/-- C9: the API-key emptiness check is exact equality with the empty
string, so any non-empty value, a pure-space value included, makes the
function proceed to the network request and place that exact value after
the Bearer marker of the Authorization header. -/
theorem C9_whitespace_key_is_present (outputs : List String) (env : Env)
    (http : HttpOutcome) (h1 : outputs ≠ []) (h2 : env.apiKey ≠ "") :
    (SummarizePlans outputs env http).request.isSome = true ∧
      (SummarizePlans outputs env http).authorization =
        some ("Bearer " ++ env.apiKey) := by
  obtain ⟨hreq, hauth⟩ := summarizePlans_active outputs env http h1 h2
  refine ⟨?_, hauth⟩
  rw [hreq]
  rfl

theorem C9_witness :
    (SummarizePlans ["plan9"] (Env.mk " " "")
        HttpOutcome.transportError).request.isSome = true ∧
      (SummarizePlans ["plan9"] (Env.mk " " "")
        HttpOutcome.transportError).authorization = some "Bearer  " := by
  obtain ⟨hreq, hauth⟩ := C9_whitespace_key_is_present ["plan9"] (Env.mk " " "")
    HttpOutcome.transportError (by decide) (by decide)
  exact ⟨hreq, hauth.trans (by decide)⟩

end OpenRouterSummarizer
